import Mathlib

/-
Verification of fraucheky.c, the USB Mass Storage Class control-request
responder of the Fraucheky repository.

The file shallowly embeds the static descriptor tables and the three entry
points (fraucheky_setup_endpoints_for_interface, fraucheky_setup,
fraucheky_get_descriptor).  Machine integers (uint8_t, uint16_t) are modelled
as Nat: the code only compares them against small constants and never does
arithmetic on them, so no overflow can matter.  Calls into the external USB
link-layer driver (usb_lld_set_data_to_send, usb_lld_setup_endpoint,
usb_lld_stall_tx, usb_lld_stall_rx) are recorded as an explicit list of
Effect values, in call order; the int return values USB_SUCCESS /
USB_UNSUPPORT become the inductive UsbResult.
-/

namespace Fraucheky

/-- Return status of the control-request entry points: USB_SUCCESS or
USB_UNSUPPORT from the external usb_lld.h. -/
inductive UsbResult where
  | success
  | unsupport
deriving DecidableEq, Repr

/-- One call into the external USB link-layer driver, recorded with its
arguments.  setDataToSend carries the buffer handed over and the separately
passed byte count. -/
inductive Effect where
  | setDataToSend (buf : List Nat) (size : Nat)
  | setupEndpoint (ep eptype st rxAddr txAddr maxPacketSize : Nat)
  | stallTx (ep : Nat)
  | stallRx (ep : Nat)
deriving DecidableEq, Repr

/-- ENDP6_TXADDR from fraucheky.c. -/
def ENDP6_TXADDR : Nat := 0x180

/-- ENDP6_RXADDR from fraucheky.c. -/
def ENDP6_RXADDR : Nat := 0x1c0

/-- USB_INITIAL_FEATURE from fraucheky.c: bmAttributes, bus powered. -/
def USB_INITIAL_FEATURE : Nat := 0x80

/-- MSC_GET_MAX_LUN_COMMAND from fraucheky.c. -/
def MSC_GET_MAX_LUN_COMMAND : Nat := 0xFE

/-- MSC_MASS_STORAGE_RESET_COMMAND from fraucheky.c. -/
def MSC_MASS_STORAGE_RESET_COMMAND : Nat := 0xFF

/-- MSC_TOTAL_LENGTH from fraucheky.c line 56: defined as (9+7+7) but never
used by the table, which encodes 9+9+7+7. -/
def MSC_TOTAL_LENGTH : Nat := 9 + 7 + 7

/-- Recipient code from the external usb_lld.h (standard USB bmRequestType
recipient field): DEVICE_RECIPIENT = 0. -/
def DEVICE_RECIPIENT : Nat := 0

/-- Descriptor-type code from the external usb_lld.h (standard USB):
DEVICE_DESCRIPTOR = 1. -/
def DEVICE_DESCRIPTOR : Nat := 1

/-- Descriptor-type code from the external usb_lld.h (standard USB):
CONFIG_DESCRIPTOR = 2. -/
def CONFIG_DESCRIPTOR : Nat := 2

/-- Descriptor-type code from the external usb_lld.h (standard USB):
STRING_DESCRIPTOR = 3. -/
def STRING_DESCRIPTOR : Nat := 3

/-- Descriptor type tag byte from the external usb_lld.h (standard USB):
device descriptor type = 1. -/
def USB_DEVICE_DESCRIPTOR_TYPE : Nat := 1

/-- Descriptor type tag byte (standard USB): configuration = 2. -/
def USB_CONFIGURATION_DESCRIPTOR_TYPE : Nat := 2

/-- Descriptor type tag byte (standard USB): string = 3. -/
def USB_STRING_DESCRIPTOR_TYPE : Nat := 3

/-- Descriptor type tag byte (standard USB): interface = 4. -/
def USB_INTERFACE_DESCRIPTOR_TYPE : Nat := 4

/-- Descriptor type tag byte (standard USB): endpoint = 5. -/
def USB_ENDPOINT_DESCRIPTOR_TYPE : Nat := 5

/-- Endpoint number 6, the ENDP6 constant of the external usb_lld.h. -/
def ENDP6 : Nat := 6

/-- EP_BULK transfer type from the external usb_lld.h (standard USB bulk
transfer type code 2). -/
def EP_BULK : Nat := 2

/-- USB_SETUP_GET from the external usb_lld.h: tests the direction bit
(bit 7) of bmRequestType; true means a device-to-host (GET) request. -/
def USB_SETUP_GET (req : Nat) : Bool := req.testBit 7

/-- Modelled from the spec: the file fraucheky-vid-pid-ver.c.inc, absent from
the sources, supplies the idVendor, idProduct and bcdDevice fields of the
device descriptor — 3 little-endian 16-bit words, i.e. 6 bytes.  The device
descriptor is kept parametric in those 6 bytes.  device_desc from
fraucheky.c lines 41-54. -/
def device_desc (vidPidVer : List Nat) : List Nat :=
  [18,                              -- bLength
   USB_DEVICE_DESCRIPTOR_TYPE,      -- bDescriptorType
   0x10, 0x01,                      -- bcdUSB = 1.1
   0x00,                            -- bDeviceClass
   0x00,                            -- bDeviceSubClass
   0x00,                            -- bDeviceProtocol
   0x40]                            -- bMaxPacketSize0
  ++ vidPidVer ++
  [1,                               -- iManufacturer
   2,                               -- iProduct
   3,                               -- iSerialNumber
   1]                               -- bNumConfigurations

/-- config_desc from fraucheky.c lines 59-96: configuration header,
interface descriptor, two bulk endpoint descriptors. -/
def config_desc : List Nat :=
  [9,                                  -- bLength
   USB_CONFIGURATION_DESCRIPTOR_TYPE,  -- bDescriptorType
   9 + 9 + 7 + 7, 0x00,                -- wTotalLength
   1,                                  -- bNumInterfaces
   0x01,                               -- bConfigurationValue
   0x00,                               -- iConfiguration
   USB_INITIAL_FEATURE,                -- bmAttributes
   50,                                 -- MaxPower 100 mA
   -- Interface descriptor
   9,                                  -- bLength
   USB_INTERFACE_DESCRIPTOR_TYPE,      -- bDescriptorType
   0,                                  -- bInterfaceNumber
   0x00,                               -- bAlternateSetting
   0x02,                               -- bNumEndpoints
   0x08,                               -- bInterfaceClass (Mass Storage)
   0x06,                               -- bInterfaceSubClass (SCSI)
   0x50,                               -- bInterfaceProtocol (Bulk-Only)
   0x00,                               -- iInterface
   -- Endpoint descriptor (IN6)
   7,                                  -- bLength
   USB_ENDPOINT_DESCRIPTOR_TYPE,       -- bDescriptorType
   0x86,                               -- bEndpointAddress
   0x02,                               -- bmAttributes (Bulk)
   0x40, 0x00,                         -- wMaxPacketSize
   0x00,                               -- bInterval
   -- Endpoint descriptor (OUT6)
   7,                                  -- bLength
   USB_ENDPOINT_DESCRIPTOR_TYPE,       -- bDescriptorType
   0x06,                               -- bEndpointAddress
   0x02,                               -- bmAttributes (Bulk)
   0x40, 0x00,                         -- wMaxPacketSize
   0x00]                               -- bInterval

/-- string_lang_id from fraucheky.c lines 100-104. -/
def string_lang_id : List Nat :=
  [4, USB_STRING_DESCRIPTOR_TYPE, 0x09, 0x04]

/-- string_serial from fraucheky.c lines 108-113: "FSIJ-0.0" in UTF-16LE
code units, with length/type prefix. -/
def string_serial : List Nat :=
  [8 * 2 + 2, USB_STRING_DESCRIPTOR_TYPE,
   0x46, 0, 0x53, 0, 0x49, 0, 0x4A, 0, 0x2D, 0, 0x30, 0, 0x2E, 0, 0x30, 0]

/-- Modelled from the spec: the file fraucheky-usb-strings.c.inc, absent from
the sources, supplies the string_vendor and string_product byte arrays; the
table is kept parametric in them.  string_descriptors from fraucheky.c
lines 118-123: each struct desc entry pairs the array with its sizeof. -/
def string_descriptors (string_vendor string_product : List Nat) :
    List (List Nat × Nat) :=
  [(string_lang_id, string_lang_id.length),
   (string_vendor, string_vendor.length),
   (string_product, string_product.length),
   (string_serial, string_serial.length)]

/-- fraucheky_setup_endpoints_for_interface from fraucheky.c lines 125-135.
The C parameter is an int used as a boolean; it is modelled as Nat with the
C truth convention (zero is false). -/
def fraucheky_setup_endpoints_for_interface (stop : Nat) : List Effect :=
  if stop = 0 then
    [Effect.setupEndpoint ENDP6 EP_BULK 0 ENDP6_RXADDR ENDP6_TXADDR 64]
  else
    [Effect.stallTx ENDP6, Effect.stallRx ENDP6]

/-- lun_table from fraucheky.c line 140. -/
def lun_table : List Nat := [0, 0, 0, 0]

/-- fraucheky_setup from fraucheky.c lines 137-158.  Returns the status and
the recorded link-layer calls. -/
def fraucheky_setup (req req_no value len : Nat) : UsbResult × List Effect :=
  if USB_SETUP_GET req then
    if req_no = MSC_GET_MAX_LUN_COMMAND then
      (UsbResult.success, [Effect.setDataToSend lun_table lun_table.length])
    else
      (UsbResult.unsupport, [])
  else
    if req_no = MSC_MASS_STORAGE_RESET_COMMAND then
      (UsbResult.success, [])
    else
      (UsbResult.unsupport, [])

/-- fraucheky_get_descriptor from fraucheky.c lines 160-188, parametric in
the bytes supplied by the two absent include files. -/
def fraucheky_get_descriptor (vidPidVer string_vendor string_product : List Nat)
    (rcp desc_type desc_index index : Nat) : UsbResult × List Effect :=
  if rcp = DEVICE_RECIPIENT ∧ index = 0 then
    if desc_type = DEVICE_DESCRIPTOR then
      (UsbResult.success,
       [Effect.setDataToSend (device_desc vidPidVer) (device_desc vidPidVer).length])
    else if desc_type = CONFIG_DESCRIPTOR then
      (UsbResult.success, [Effect.setDataToSend config_desc config_desc.length])
    else if desc_type = STRING_DESCRIPTOR then
      if h : desc_index < (string_descriptors string_vendor string_product).length then
        let d := (string_descriptors string_vendor string_product).get ⟨desc_index, h⟩
        (UsbResult.success, [Effect.setDataToSend d.1 d.2])
      else
        (UsbResult.unsupport, [])
    else
      (UsbResult.unsupport, [])
  else
    (UsbResult.unsupport, [])

/-- C1: for every desc_index below the string table length (4), a
STRING_DESCRIPTOR request to DEVICE_RECIPIENT with language index 0 returns
success and hands the link layer exactly the byte sequence and length of the
corresponding string_descriptors entry; for every desc_index at or beyond
the table length it returns unsupport. -/
theorem get_descriptor_string_table (vpv sv sp : List Nat) (i : Nat) :
    (∀ h : i < (string_descriptors sv sp).length,
       fraucheky_get_descriptor vpv sv sp DEVICE_RECIPIENT STRING_DESCRIPTOR i 0
         = (UsbResult.success,
            [Effect.setDataToSend ((string_descriptors sv sp).get ⟨i, h⟩).1
                                  ((string_descriptors sv sp).get ⟨i, h⟩).2])) ∧
    ((string_descriptors sv sp).length ≤ i →
       fraucheky_get_descriptor vpv sv sp DEVICE_RECIPIENT STRING_DESCRIPTOR i 0
         = (UsbResult.unsupport, [])) := by
  constructor
  · intro h
    simp [fraucheky_get_descriptor, DEVICE_RECIPIENT, STRING_DESCRIPTOR,
          DEVICE_DESCRIPTOR, CONFIG_DESCRIPTOR, h]
  · intro h
    simp [fraucheky_get_descriptor, DEVICE_RECIPIENT, STRING_DESCRIPTOR,
          DEVICE_DESCRIPTOR, CONFIG_DESCRIPTOR, Nat.not_lt.mpr h]

/-- Witness for C1 at concrete inputs: index 3 is in range and yields the
serial-number entry; index 4 is out of range and yields unsupport. -/
theorem get_descriptor_string_table_witness :
    fraucheky_get_descriptor [] [] [] DEVICE_RECIPIENT STRING_DESCRIPTOR 3 0
      = (UsbResult.success, [Effect.setDataToSend string_serial 18]) ∧
    fraucheky_get_descriptor [] [] [] DEVICE_RECIPIENT STRING_DESCRIPTOR 4 0
      = (UsbResult.unsupport, []) := by
  refine ⟨?_, ?_⟩
  · have h := (get_descriptor_string_table [] [] [] 3).1 (by decide)
    simpa [string_descriptors, string_serial] using h
  · exact (get_descriptor_string_table [] [] [] 4).2 (by decide)

/-- C2: for every value and length, a GET-direction setup request with code
0xFE (GET_MAX_LUN) returns success and passes the link layer the 4-byte
all-zero lun_table with length 4. -/
theorem setup_get_max_lun (req value len : Nat) (h : USB_SETUP_GET req = true) :
    fraucheky_setup req MSC_GET_MAX_LUN_COMMAND value len
      = (UsbResult.success, [Effect.setDataToSend [0, 0, 0, 0] 4]) := by
  simp [fraucheky_setup, h, lun_table]

/-- Witness for C2 at req = 0xA1 (a device-to-host class interface
request). -/
theorem setup_get_max_lun_witness :
    fraucheky_setup 0xA1 MSC_GET_MAX_LUN_COMMAND 7 33
      = (UsbResult.success, [Effect.setDataToSend [0, 0, 0, 0] 4]) :=
  setup_get_max_lun 0xA1 7 33 (by decide)

/-- C3: a CONFIG_DESCRIPTOR request hands the link layer config_desc with
its exact length; config_desc declares wTotalLength (bytes 2-3,
little-endian) equal to its actual length, which is 32, while the unused
constant MSC_TOTAL_LENGTH is 23. -/
theorem get_descriptor_config (vpv sv sp : List Nat) (i : Nat) :
    fraucheky_get_descriptor vpv sv sp DEVICE_RECIPIENT CONFIG_DESCRIPTOR i 0
      = (UsbResult.success, [Effect.setDataToSend config_desc config_desc.length]) ∧
    config_desc.getD 2 0 + 256 * config_desc.getD 3 0 = config_desc.length ∧
    config_desc.length = 32 ∧
    MSC_TOTAL_LENGTH = 23 := by
  refine ⟨?_, by decide, by decide, by decide⟩
  simp [fraucheky_get_descriptor, DEVICE_RECIPIENT, CONFIG_DESCRIPTOR,
        DEVICE_DESCRIPTOR]

/-- C4: for every desc_index, a DEVICE_DESCRIPTOR request returns success
with the device descriptor and its length; with the 6 bytes of
vid/pid/version filled in, that descriptor is 18 bytes, its byte 0 is 18 and
its byte 1 is the device-descriptor type tag. -/
theorem get_descriptor_device (vpv sv sp : List Nat) (i : Nat)
    (h : vpv.length = 6) :
    fraucheky_get_descriptor vpv sv sp DEVICE_RECIPIENT DEVICE_DESCRIPTOR i 0
      = (UsbResult.success,
         [Effect.setDataToSend (device_desc vpv) (device_desc vpv).length]) ∧
    (device_desc vpv).length = 18 ∧
    (device_desc vpv).getD 0 0 = 18 ∧
    (device_desc vpv).getD 1 0 = USB_DEVICE_DESCRIPTOR_TYPE := by
  refine ⟨?_, ?_, ?_, ?_⟩
  · simp [fraucheky_get_descriptor, DEVICE_RECIPIENT, DEVICE_DESCRIPTOR]
  · simp [device_desc, h]
  · simp [device_desc]
  · simp [device_desc]

/-- Witness for C4 at a concrete 6-byte vid/pid/version block. -/
theorem get_descriptor_device_witness :
    fraucheky_get_descriptor [0x34, 0x12, 0x78, 0x56, 0x00, 0x01] [] [] 0 1 5 0
      = (UsbResult.success,
         [Effect.setDataToSend
            (device_desc [0x34, 0x12, 0x78, 0x56, 0x00, 0x01]) 18]) ∧
    (device_desc [0x34, 0x12, 0x78, 0x56, 0x00, 0x01]).getD 0 0 = 18 ∧
    (device_desc [0x34, 0x12, 0x78, 0x56, 0x00, 0x01]).getD 1 0 = 1 := by
  have h := get_descriptor_device [0x34, 0x12, 0x78, 0x56, 0x00, 0x01] [] [] 5
    (by decide)
  exact ⟨by rw [h.2.1] at h ⊢; exact h.1, h.2.2.1, h.2.2.2⟩

/-- C5: for every descriptor type and index, fraucheky_get_descriptor
returns unsupport whenever the recipient is not DEVICE_RECIPIENT or the
language index is nonzero. -/
theorem get_descriptor_wrong_recipient (vpv sv sp : List Nat)
    (rcp desc_type desc_index index : Nat)
    (h : rcp ≠ DEVICE_RECIPIENT ∨ index ≠ 0) :
    (fraucheky_get_descriptor vpv sv sp rcp desc_type desc_index index).1
      = UsbResult.unsupport := by
  have hcond : ¬(rcp = DEVICE_RECIPIENT ∧ index = 0) := by tauto
  simp [fraucheky_get_descriptor, hcond]

/-- Witness for C5 at recipient 1 (interface) and at language index 9. -/
theorem get_descriptor_wrong_recipient_witness :
    (fraucheky_get_descriptor [] [] [] 1 1 0 0).1 = UsbResult.unsupport ∧
    (fraucheky_get_descriptor [] [] [] 0 1 0 9).1 = UsbResult.unsupport :=
  ⟨get_descriptor_wrong_recipient [] [] [] 1 1 0 0 (Or.inl (by decide)),
   get_descriptor_wrong_recipient [] [] [] 0 1 0 9 (Or.inr (by decide))⟩

/-- C6: fraucheky_setup succeeds exactly on (GET direction, code 0xFE) and
(non-GET direction, code 0xFF), and fails with unsupport on every other
direction/code pair; in the non-GET 0xFF case it succeeds while sending no
data. -/
theorem setup_success_exactly (req req_no value len : Nat) :
    ((fraucheky_setup req req_no value len).1 = UsbResult.success ↔
      ((USB_SETUP_GET req = true ∧ req_no = MSC_GET_MAX_LUN_COMMAND) ∨
       (USB_SETUP_GET req = false ∧ req_no = MSC_MASS_STORAGE_RESET_COMMAND))) ∧
    (USB_SETUP_GET req = false → req_no = MSC_MASS_STORAGE_RESET_COMMAND →
      fraucheky_setup req req_no value len = (UsbResult.success, [])) := by
  constructor
  · unfold fraucheky_setup
    rcases hg : USB_SETUP_GET req with _ | _ <;>
      rcases hfe : decide (req_no = MSC_GET_MAX_LUN_COMMAND) with _ | _ <;>
      rcases hff : decide (req_no = MSC_MASS_STORAGE_RESET_COMMAND) with _ | _ <;>
      simp_all
  · intro hg hff
    simp [fraucheky_setup, hg, hff]

/-- Witness for C6: instantiated at (SET direction req = 0x21, code 0xFF),
where the theorem's inner hypotheses hold, giving success with no data. -/
theorem setup_success_exactly_witness :
    fraucheky_setup 0x21 MSC_MASS_STORAGE_RESET_COMMAND 2 9
      = (UsbResult.success, []) :=
  (setup_success_exactly 0x21 MSC_MASS_STORAGE_RESET_COMMAND 2 9).2
    (by decide) (by decide)

/-- C7: with stop zero (false), the endpoint configurator issues exactly one
configure-endpoint call for ENDP6 with bulk type, the fixed buffer addresses
and max packet size 64; with stop nonzero (true), it issues exactly a
stall-transmit and then a stall-receive call on ENDP6, and the two effect
kinds are never mixed in one run. -/
theorem setup_endpoints_effects (stop : Nat) :
    (stop = 0 →
      fraucheky_setup_endpoints_for_interface stop
        = [Effect.setupEndpoint ENDP6 EP_BULK 0 ENDP6_RXADDR ENDP6_TXADDR 64]) ∧
    (stop ≠ 0 →
      fraucheky_setup_endpoints_for_interface stop
        = [Effect.stallTx ENDP6, Effect.stallRx ENDP6]) := by
  constructor
  · intro h
    simp [fraucheky_setup_endpoints_for_interface, h]
  · intro h
    simp [fraucheky_setup_endpoints_for_interface, h]

/-- Witness for C7 at stop = 0 and stop = 1. -/
theorem setup_endpoints_effects_witness :
    fraucheky_setup_endpoints_for_interface 0
      = [Effect.setupEndpoint 6 2 0 0x1c0 0x180 64] ∧
    fraucheky_setup_endpoints_for_interface 1
      = [Effect.stallTx 6, Effect.stallRx 6] := by
  refine ⟨?_, ?_⟩
  · have h := (setup_endpoints_effects 0).1 rfl
    simpa [ENDP6, EP_BULK, ENDP6_RXADDR, ENDP6_TXADDR] using h
  · have h := (setup_endpoints_effects 1).2 (by decide)
    simpa [ENDP6] using h

/-- C8: two fraucheky_setup calls that agree on the direction byte and
request code but differ arbitrarily in value and length return the same
status and issue the same effect sequence: value and length never influence
the behaviour. -/
theorem setup_ignores_value_len (req req_no v1 l1 v2 l2 : Nat) :
    fraucheky_setup req req_no v1 l1 = fraucheky_setup req req_no v2 l2 := rfl

/-- C9: each entry point is a pure function of its arguments over the
immutable static tables: two consecutive identical calls return the same
outcome and issue the same effect sequence, call order notwithstanding. -/
theorem entry_points_deterministic (vpv sv sp : List Nat)
    (stop req req_no value len rcp desc_type desc_index index : Nat) :
    fraucheky_setup_endpoints_for_interface stop
      = fraucheky_setup_endpoints_for_interface stop ∧
    fraucheky_setup req req_no value len = fraucheky_setup req req_no value len ∧
    fraucheky_get_descriptor vpv sv sp rcp desc_type desc_index index
      = fraucheky_get_descriptor vpv sv sp rcp desc_type desc_index index :=
  ⟨rfl, rfl, rfl⟩

/-- C10: whenever fraucheky_get_descriptor returns unsupport — including a
DEVICE_RECIPIENT request with language index 0 but an unrecognised
descriptor type — it records no effect: the outbound-data primitive is never
invoked on the failing path. -/
theorem get_descriptor_unsupport_no_effect (vpv sv sp : List Nat)
    (rcp desc_type desc_index index : Nat)
    (h : (fraucheky_get_descriptor vpv sv sp rcp desc_type desc_index index).1
           = UsbResult.unsupport) :
    (fraucheky_get_descriptor vpv sv sp rcp desc_type desc_index index).2
      = [] := by
  unfold fraucheky_get_descriptor at h ⊢
  split_ifs at h ⊢ <;> simp_all

/-- Witness for C10 at recipient DEVICE_RECIPIENT, language index 0 and the
unrecognised descriptor type 7. -/
theorem get_descriptor_unsupport_no_effect_witness :
    (fraucheky_get_descriptor [] [] [] 0 7 0 0).2 = [] :=
  get_descriptor_unsupport_no_effect [] [] [] 0 7 0 0 (by decide)

end Fraucheky
